import Mathlib

/-!
Shallow embedding of `src/code_macro.py`, a FreeCAD macro that watches one
Python file and re-executes its contents inside the host application on each
detected change.  The host (FreeCAD/Qt), the filesystem and the clock are
external collaborators; they enter the embedding as explicit parameters
(`ReloadEnv`, observation times, availability flags).  Debug `print` calls
carry no control-flow significance and are not modelled as host actions.
-/

/-- Host-visible actions performed by `ThreadSafeReloader.reload_geometry_safe`,
in the order the source performs them: reading the watched file, executing its
content via the host `exec` facility, `App.ActiveDocument.recompute()`,
`Gui.updateGui()`, `App.Console.PrintMessage` and `App.Console.PrintError`. -/
inductive HostAction where
  | readFile : HostAction
  | execCode : HostAction
  | recompute : HostAction
  | updateGui : HostAction
  | printMessage : String → HostAction
  | printError : String → HostAction
  deriving DecidableEq, Repr

/-- Environment one invocation of `reload_geometry_safe` runs in:
whether `os.path.exists` holds for the target, whether reading the file raises
(`some` carries the exception text), whether `exec(code, namespace)` raises,
and whether `App.ActiveDocument` is truthy. -/
structure ReloadEnv where
  fileExists : Bool
  readError : Option String
  execError : Option String
  activeDocument : Bool
  deriving DecidableEq, Repr

/-- Body of the `try` block of `ThreadSafeReloader.reload_geometry_safe`
(src/code_macro.py lines 52-95): returns the host actions performed so far
together with the exception raised inside the block, if any.  The early
`return` on a missing file performs no host action and raises nothing. -/
def reload_body (env : ReloadEnv) : List HostAction × Option String :=
  if env.fileExists = false then
    ([], none)
  else
    match env.readError with
    | some e => ([], some e)
    | none =>
      match env.execError with
      | some e => ([HostAction.readFile, HostAction.execCode], some e)
      | none =>
        if env.activeDocument then
          ([HostAction.readFile, HostAction.execCode, HostAction.recompute,
            HostAction.updateGui,
            HostAction.printMessage ">>> Geometry updated from file! <<<\n"], none)
        else
          ([HostAction.readFile, HostAction.execCode], none)

/-- `ThreadSafeReloader.reload_geometry_safe` as seen by its caller: the
`except Exception` handler turns any exception raised in the `try` block into
an `App.Console.PrintError` call and a normal return, so the result is
`Except.ok` with the trace of host actions; `Except.error` would model a
propagated exception, which the handler never produces. -/
def reload_geometry_safe (env : ReloadEnv) : Except String (List HostAction) :=
  match reload_body env with
  | (acts, none) => Except.ok acts
  | (acts, some e) =>
      Except.ok (acts ++ [HostAction.printError ("💥 ERROR during reload: " ++ e ++ "\n")])

/-- Trace of host actions of one `reload_geometry_safe` invocation. -/
def reload_actions (env : ReloadEnv) : List HostAction :=
  match reload_geometry_safe env with
  | Except.ok acts => acts
  | Except.error _ => []

/-- State of a `DebugFileHandler`: the watched path (fixed at construction)
and the debounce timestamp `last_modified`, initialised to `0`.  Times are
modelled as rationals standing in for Python floats from `time.time()`. -/
structure DebugFileHandler where
  python_file_path : String
  last_modified : ℚ
  deriving DecidableEq, Repr

/-- `DebugFileHandler._trigger_reload` (src/code_macro.py lines 141-158):
debounce check against `time.time()` (here `current_time`), then on accept
update `last_modified` and call `reloader.request_reload` when the global
`reloader` is set (`reloaderPresent`).  Returns the updated handler and the
list of forwarded reload requests. -/
def trigger_reload (reloaderPresent : Bool) (current_time : ℚ)
    (h : DebugFileHandler) : DebugFileHandler × List String :=
  let time_diff := current_time - h.last_modified
  if time_diff < 1 then
    (h, [])
  else
    let h2 := { h with last_modified := current_time }
    if reloaderPresent then (h2, [h.python_file_path]) else (h2, [])

/-- Kind of a watchdog filesystem event. -/
inductive EventType where
  | modified : EventType
  | moved : EventType
  | created : EventType
  | deleted : EventType
  deriving DecidableEq, Repr

/-- A watchdog filesystem event: its kind, source path, destination path
(`some` only when the event carries a `dest_path` attribute, i.e. move
events), and the directory flag. -/
structure FsEvent where
  event_type : EventType
  src_path : String
  dest_path : Option String
  is_directory : Bool
  deriving DecidableEq, Repr

/-- `DebugFileHandler.on_moved` (lines 119-126), reduced to whether
`_trigger_reload` is invoked: true iff the event has a `dest_path` equal to
the watched file (atomic-save pattern).  No directory check is performed. -/
def on_moved (python_file_path : String) (e : FsEvent) : Bool :=
  decide (e.dest_path = some python_file_path)

/-- `DebugFileHandler._check_if_our_file_changed` (lines 128-139), reduced to
whether `_trigger_reload` is invoked: directory events are ignored, events
for other source paths are ignored, otherwise trigger. -/
def check_if_our_file_changed (python_file_path : String) (e : FsEvent) : Bool :=
  if e.is_directory then false
  else if e.src_path ≠ python_file_path then false
  else true

/-- Watchdog dispatch for `DebugFileHandler`: `on_modified` and `on_moved`
are overridden; `created`/`deleted` events fall through to the base handler,
which does nothing beyond the debug `on_any_event` print.  Result: whether
the event reaches `_trigger_reload` (the debounced reload path). -/
def dispatch_event (python_file_path : String) (e : FsEvent) : Bool :=
  match e.event_type with
  | EventType.moved => on_moved python_file_path e
  | EventType.modified => check_if_our_file_changed python_file_path e
  | EventType.created => false
  | EventType.deleted => false

/-- State of a `DebugPollingWatcher`: the watched path and the previously
observed modification time, initialised to `0`. -/
structure DebugPollingWatcher where
  file_path : String
  last_modified : ℚ
  deriving DecidableEq, Repr

/-- One iteration of the loop body of `DebugPollingWatcher._poll`
(src/code_macro.py lines 186-212): if the file exists, compare its current
`os.path.getmtime` (`current_modified`) with the stored `last_modified`;
on increase, request a reload unless `last_modified > 0` fails (the
"skip first check" sentinel), then store the new time.  Returns the updated
watcher and the reload requests issued this cycle. -/
def poll_step (reloaderPresent : Bool) (fileExistsNow : Bool)
    (current_modified : ℚ) (w : DebugPollingWatcher) :
    DebugPollingWatcher × List String :=
  if fileExistsNow then
    if w.last_modified < current_modified then
      if 0 < w.last_modified then
        ({ w with last_modified := current_modified },
          if reloaderPresent then [w.file_path] else [])
      else
        ({ w with last_modified := current_modified }, [])
    else
      (w, [])
  else
    (w, [])

/-- Global module state of src/code_macro.py (`observer`, `polling_thread`,
`reloader`, all initially `None`), extended with ghost bookkeeping: fresh ids
for each created object, the list of reloaders ever constructed, and the
observers/pollers that have been started and not stopped (active ones). -/
structure WatcherGlobals where
  observer : Option Nat
  polling_thread : Option Nat
  reloader : Option Nat
  next_id : Nat
  created_reloaders : List Nat
  active_observers : List Nat
  active_pollers : List Nat
  deriving DecidableEq, Repr

/-- Module state right after import: all three globals are `None`. -/
def initialGlobals : WatcherGlobals :=
  { observer := none, polling_thread := none, reloader := none,
    next_id := 0, created_reloaders := [], active_observers := [],
    active_pollers := [] }

/-- External conditions of one `start_debug_watcher` call: whether the
watchdog import succeeded (`WATCHDOG_AVAILABLE`) and whether
`Observer()` / `schedule` / `start` raises. -/
structure WatcherEnv where
  watchdog_available : Bool
  observer_start_fails : Bool
  deriving DecidableEq, Repr

/-- Fallback branch of `start_debug_watcher` (lines 242-246): construct a
`DebugPollingWatcher`, start its thread, return `True`. -/
def start_polling (g : WatcherGlobals) : WatcherGlobals × Bool :=
  let pid := g.next_id
  ({ g with
      polling_thread := some pid
      next_id := g.next_id + 1
      active_pollers := g.active_pollers ++ [pid] }, true)

/-- `start_debug_watcher` (src/code_macro.py lines 220-246): unconditionally
construct a fresh `ThreadSafeReloader` and store it in the global `reloader`;
if watchdog is available, construct and start an `Observer` and return `True`;
if that raises, or watchdog is unavailable, fall back to the polling watcher
and return `True`.  There is no check of the previous global state. -/
def start_debug_watcher (env : WatcherEnv) (g : WatcherGlobals) :
    WatcherGlobals × Bool :=
  let rid := g.next_id
  let g1 : WatcherGlobals :=
    { g with
        reloader := some rid
        next_id := g.next_id + 1
        created_reloaders := g.created_reloaders ++ [rid] }
  if env.watchdog_available then
    if env.observer_start_fails then
      start_polling g1
    else
      let oid := g1.next_id
      ({ g1 with
          observer := some oid
          next_id := g1.next_id + 1
          active_observers := g1.active_observers ++ [oid] }, true)
  else
    start_polling g1

/-- Execution context of a piece of code: the Qt main thread (the privileged
context on which document mutation and GUI refresh are safe) or a numbered
background detection thread. -/
inductive ExecCtx where
  | mainThread : ExecCtx
  | backgroundThread : Nat → ExecCtx
  deriving DecidableEq, Repr

/-- Dispatcher state: the main-thread event queue holding reload requests
whose queued signal has been emitted but not yet delivered, and the log of
`reload_geometry_safe` invocations tagged with the context they ran on. -/
structure DispatcherState where
  pending : List String
  executed : List (ExecCtx × String)
  deriving DecidableEq, Repr

/-- Dispatcher state at session start: nothing queued, nothing executed. -/
def initialDispatcher : DispatcherState :=
  { pending := [], executed := [] }

/-- `ThreadSafeReloader.request_reload` (lines 40-45): `reload_signal.emit`.
The reloader `QObject` is constructed on the main thread, so per Qt
auto-connection semantics the cross-thread emission is a queued connection:
it appends the request to the main-thread event queue and returns
immediately to the caller, on whichever thread it runs. -/
def request_reload (path : String) (s : DispatcherState) : DispatcherState :=
  { s with pending := s.pending ++ [path] }

/-- The main-thread Qt event loop delivering one queued signal: the connected
slot `reload_geometry_safe` runs on the main thread, in FIFO order. -/
def deliver_one (s : DispatcherState) : DispatcherState :=
  match s.pending with
  | [] => s
  | p :: rest => { pending := rest, executed := s.executed ++ [(ExecCtx.mainThread, p)] }

/-- One step of the concurrent system: a detection thread (or any context)
passes a debounce-accepted change to `request_reload`, or the main-thread
event loop delivers the next queued signal. -/
inductive SysStep where
  | detect : ExecCtx → String → SysStep
  | deliver : SysStep
  deriving DecidableEq, Repr

/-- Run an interleaving of detection and delivery steps. -/
def run_steps : List SysStep → DispatcherState → DispatcherState
  | [], s => s
  | SysStep.detect _ p :: rest, s => run_steps rest (request_reload p s)
  | SysStep.deliver :: rest, s => run_steps rest (deliver_one s)

/-- Reload requests of an interleaving, in submission order. -/
def submissions : List SysStep → List String
  | [] => []
  | SysStep.detect _ p :: rest => p :: submissions rest
  | SysStep.deliver :: rest => submissions rest

/-- Reload environment with a present, readable file, successful execution
and an active document. -/
def reloadEnvOkDoc : ReloadEnv :=
  { fileExists := true, readError := none, execError := none, activeDocument := true }

/-- Reload environment with a present, readable file, successful execution
and no active document. -/
def reloadEnvNoDoc : ReloadEnv :=
  { fileExists := true, readError := none, execError := none, activeDocument := false }

/-- Reload environment where `exec` raises with message `boom`. -/
def reloadEnvExecBoom : ReloadEnv :=
  { fileExists := true, readError := none, execError := some "boom",
    activeDocument := true }

/-- Claim C1: the debounce gate of `_trigger_reload` rejects an event arriving
strictly less than 1 second after the last accepted change (handler state
unchanged, no reload forwarded) and accepts an event arriving 1 second or
more after it (debounce timestamp updated to the current time, exactly one
reload request forwarded), with the session's global reloader set. -/
theorem debounce_gate_accept_reject (h : DebugFileHandler) (t : ℚ) :
    (t - h.last_modified < 1 → trigger_reload true t h = (h, [])) ∧
    (1 ≤ t - h.last_modified →
      trigger_reload true t h =
        ({ h with last_modified := t }, [h.python_file_path])) := by
  constructor
  · intro hlt
    simp [trigger_reload, hlt]
  · intro hge
    simp [trigger_reload, not_lt.mpr hge]

/-- Witness for C1: from an accepted change at time 0, an event at time 1/2
is debounced and an event at time 5 is accepted and forwarded once. -/
theorem debounce_gate_accept_reject_witness :
    trigger_reload true (1/2)
        { python_file_path := "/tmp/doc_geometry.py", last_modified := 0 } =
      ({ python_file_path := "/tmp/doc_geometry.py", last_modified := 0 }, []) ∧
    trigger_reload true 5
        { python_file_path := "/tmp/doc_geometry.py", last_modified := 0 } =
      ({ python_file_path := "/tmp/doc_geometry.py", last_modified := 5 },
        ["/tmp/doc_geometry.py"]) :=
  ⟨(debounce_gate_accept_reject _ _).1 (by norm_num),
   (debounce_gate_accept_reject _ _).2 (by norm_num)⟩

/-- Counterexample to claim C2: execution of the file content succeeds
(`execError = none`), yet neither `recompute` nor `updateGui` nor the
informational success message is performed, because `App.ActiveDocument`
is `None`. -/
theorem reload_success_without_document_counterexample :
    reloadEnvNoDoc.execError = none ∧
    reload_geometry_safe reloadEnvNoDoc =
      Except.ok [HostAction.readFile, HostAction.execCode] ∧
    HostAction.recompute ∉ reload_actions reloadEnvNoDoc := by
  refine ⟨rfl, rfl, ?_⟩
  decide

/-- Claim C2 (amended): for every reload in which the file exists, reading
succeeds, applying the content to the namespace succeeds and the host has an
active document, the executor invokes the recompute hook, then the GUI
refresh hook, and then reports success on the informational channel, in that
order. -/
theorem reload_success_hook_order (env : ReloadEnv)
    (hf : env.fileExists = true) (hr : env.readError = none)
    (he : env.execError = none) (hd : env.activeDocument = true) :
    reload_geometry_safe env =
      Except.ok [HostAction.readFile, HostAction.execCode, HostAction.recompute,
        HostAction.updateGui,
        HostAction.printMessage ">>> Geometry updated from file! <<<\n"] := by
  simp [reload_geometry_safe, reload_body, hf, hr, he, hd]

/-- Witness for C2 (amended) in the environment with an active document. -/
theorem reload_success_hook_order_witness :
    reload_geometry_safe reloadEnvOkDoc =
      Except.ok [HostAction.readFile, HostAction.execCode, HostAction.recompute,
        HostAction.updateGui,
        HostAction.printMessage ">>> Geometry updated from file! <<<\n"] :=
  reload_success_hook_order reloadEnvOkDoc rfl rfl rfl rfl

/-- Claim C3: when reading the file or executing its content raises, the
executor reports the failure detail on the host error channel, performs none
of the success-path host actions, and returns normally (`Except.ok`, i.e. the
exception does not propagate to the caller), so the watch session stays
alive. -/
theorem reload_failure_contained (env : ReloadEnv) (e : String)
    (hf : env.fileExists = true)
    (herr : env.readError = some e ∨
      (env.readError = none ∧ env.execError = some e)) :
    reload_geometry_safe env = Except.ok (reload_actions env) ∧
    HostAction.printError ("💥 ERROR during reload: " ++ e ++ "\n") ∈
      reload_actions env ∧
    HostAction.recompute ∉ reload_actions env ∧
    HostAction.updateGui ∉ reload_actions env ∧
    (∀ m, HostAction.printMessage m ∉ reload_actions env) := by
  rcases herr with hre | ⟨hre, hee⟩
  · simp [reload_geometry_safe, reload_actions, reload_body, hf, hre]
  · simp [reload_geometry_safe, reload_actions, reload_body, hf, hre, hee]

/-- Witness for C3 at the environment whose `exec` raises `boom`. -/
theorem reload_failure_contained_witness :
    reload_geometry_safe reloadEnvExecBoom =
      Except.ok (reload_actions reloadEnvExecBoom) ∧
    HostAction.printError ("💥 ERROR during reload: " ++ "boom" ++ "\n") ∈
      reload_actions reloadEnvExecBoom ∧
    HostAction.recompute ∉ reload_actions reloadEnvExecBoom ∧
    HostAction.updateGui ∉ reload_actions reloadEnvExecBoom ∧
    (∀ m, HostAction.printMessage m ∉ reload_actions reloadEnvExecBoom) :=
  reload_failure_contained reloadEnvExecBoom "boom" rfl (Or.inr ⟨rfl, rfl⟩)

/-- Claim C6: when the target file does not exist at execution time,
`reload_geometry_safe` returns normally with an empty host-action trace:
nothing is read or executed, no host state is mutated, and nothing is
reported on the error channel. -/
theorem reload_missing_file_silent (env : ReloadEnv)
    (hf : env.fileExists = false) :
    reload_geometry_safe env = Except.ok [] := by
  simp [reload_geometry_safe, reload_body, hf]

/-- Witness for C6 with a missing file. -/
theorem reload_missing_file_silent_witness :
    reload_geometry_safe
        { fileExists := false, readError := none, execError := none,
          activeDocument := true } = Except.ok [] :=
  reload_missing_file_silent _ rfl

/-- Claim C9: after a successful execution, the recompute hook, the GUI
refresh and the informational success message are all performed iff the host
has an active document; when it has none, all three are skipped and nothing
is reported on the error channel. -/
theorem reload_hooks_iff_active_document (env : ReloadEnv)
    (hf : env.fileExists = true) (hr : env.readError = none)
    (he : env.execError = none) :
    ((HostAction.recompute ∈ reload_actions env ∧
      HostAction.updateGui ∈ reload_actions env ∧
      HostAction.printMessage ">>> Geometry updated from file! <<<\n" ∈
        reload_actions env) ↔ env.activeDocument = true) ∧
    (env.activeDocument = false →
      ∀ m, HostAction.printError m ∉ reload_actions env) := by
  cases hd : env.activeDocument
  · simp [reload_actions, reload_geometry_safe, reload_body, hf, hr, he, hd]
  · simp [reload_actions, reload_geometry_safe, reload_body, hf, hr, he, hd]

/-- Witness for C9 in the environment with an active document. -/
theorem reload_hooks_iff_active_document_witness :
    ((HostAction.recompute ∈ reload_actions reloadEnvOkDoc ∧
      HostAction.updateGui ∈ reload_actions reloadEnvOkDoc ∧
      HostAction.printMessage ">>> Geometry updated from file! <<<\n" ∈
        reload_actions reloadEnvOkDoc) ↔ reloadEnvOkDoc.activeDocument = true) ∧
    (reloadEnvOkDoc.activeDocument = false →
      ∀ m, HostAction.printError m ∉ reload_actions reloadEnvOkDoc) :=
  reload_hooks_iff_active_document reloadEnvOkDoc rfl rfl rfl

/-- Polling watcher right after `start`: `last_modified = 0`. -/
def pollInitial : DebugPollingWatcher :=
  { file_path := "/tmp/doc_geometry.py", last_modified := 0 }

/-- Counterexample to claim C4: observe an existing file whose modification
time is 0 (the Unix epoch) first, then one second later observe mtime 1.
After the first observation the recorded baseline is 0, and the second
observation's mtime 1 is strictly greater than that recorded baseline, yet
no change event is emitted: the code treats any observation made while
`last_modified = 0` holds as a first check, so the claim's "regardless of
what that modification time is" fails. -/
theorem poll_first_observation_counterexample :
    (poll_step true true 0 pollInitial).1.last_modified = 0 ∧
    (poll_step true true 0 pollInitial).1.last_modified < 1 ∧
    (poll_step true true 1 (poll_step true true 0 pollInitial).1).2 = [] := by
  norm_num [poll_step, pollInitial]

/-- Claim C4 (amended): provided observed modification times are strictly
positive (true of any file touched after the epoch; the code reuses `0`, the
initial `last_modified`, as its "no observation yet" sentinel): the first
observation of an existing file records its mtime as the baseline and emits
no change event, regardless of that (positive) mtime; afterwards an
observation emits exactly one change event when its mtime strictly exceeds
the recorded baseline and none otherwise. -/
theorem poll_step_first_and_subsequent (w : DebugPollingWatcher) (m : ℚ) :
    (0 < m →
      poll_step true true m { file_path := w.file_path, last_modified := 0 } =
        ({ file_path := w.file_path, last_modified := m }, [])) ∧
    (0 < w.last_modified → w.last_modified < m →
      poll_step true true m w = ({ w with last_modified := m }, [w.file_path])) ∧
    (0 < w.last_modified → m ≤ w.last_modified →
      poll_step true true m w = (w, [])) := by
  refine ⟨?_, ?_, ?_⟩
  · intro hm
    simp [poll_step, hm]
  · intro h0 hlt
    simp [poll_step, hlt, h0]
  · intro h0 hle
    simp [poll_step, not_lt.mpr hle]

/-- Witness for C4 (amended): a first observation at mtime 2 records the
baseline silently; a later observation at mtime 3 emits one change event. -/
theorem poll_step_first_and_subsequent_witness :
    poll_step true true 2
        { file_path := "/tmp/doc_geometry.py", last_modified := 0 } =
      ({ file_path := "/tmp/doc_geometry.py", last_modified := 2 }, []) ∧
    poll_step true true 3
        { file_path := "/tmp/doc_geometry.py", last_modified := 2 } =
      ({ file_path := "/tmp/doc_geometry.py", last_modified := 3 },
        ["/tmp/doc_geometry.py"]) :=
  ⟨(poll_step_first_and_subsequent
      { file_path := "/tmp/doc_geometry.py", last_modified := 0 } 2).1
      (by norm_num),
   (poll_step_first_and_subsequent
      { file_path := "/tmp/doc_geometry.py", last_modified := 2 } 3).2.1
      (by norm_num) (by norm_num)⟩

/-- A directory-level move event whose destination equals the watched path. -/
def dirMoveOntoTarget : FsEvent :=
  { event_type := EventType.moved, src_path := "/tmp/.goutputstream",
    dest_path := some "/tmp/doc_geometry.py", is_directory := true }

/-- Counterexample to claim C5: `on_moved` performs no directory check, so a
directory-level move event whose destination equals the watched path reaches
`_trigger_reload`, although the claim says any directory-level event triggers
nothing. -/
theorem dispatch_directory_move_counterexample :
    dirMoveOntoTarget.is_directory = true ∧
    dispatch_event "/tmp/doc_geometry.py" dirMoveOntoTarget = true := by
  constructor
  · rfl
  · simp [dispatch_event, dirMoveOntoTarget, on_moved]

/-- Claim C5 (amended): a move event triggers the debounced reload path iff
its destination equals the watched path, with no regard to the directory
flag; a modification event triggers iff it is not directory-level and its
source path is the watched path; created and deleted events never trigger. -/
theorem dispatch_event_trigger_conditions (p : String) (e : FsEvent) :
    (e.event_type = EventType.moved →
      (dispatch_event p e = true ↔ e.dest_path = some p)) ∧
    (e.event_type = EventType.modified →
      (dispatch_event p e = true ↔
        (e.is_directory = false ∧ e.src_path = p))) ∧
    (e.event_type = EventType.created ∨ e.event_type = EventType.deleted →
      dispatch_event p e = false) := by
  refine ⟨?_, ?_, ?_⟩
  · intro ht
    simp [dispatch_event, ht, on_moved]
  · intro ht
    cases hd : e.is_directory <;>
      simp [dispatch_event, ht, check_if_our_file_changed, hd]
  · intro ht
    rcases ht with ht | ht <;> simp [dispatch_event, ht]

/-- A non-directory move of a temp file onto the watched path. -/
def tempMoveOntoTarget : FsEvent :=
  { event_type := EventType.moved, src_path := "/tmp/tmpXYZ",
    dest_path := some "/tmp/doc_geometry.py", is_directory := false }

/-- A directory-level modification event at the watched path. -/
def dirModifiedAtTarget : FsEvent :=
  { event_type := EventType.modified, src_path := "/tmp/doc_geometry.py",
    dest_path := none, is_directory := true }

/-- Witness for C5 (amended), at a non-directory move of a temp file onto the
watched path and at a directory-level modification of the watched path. -/
theorem dispatch_event_trigger_conditions_witness :
    (dispatch_event "/tmp/doc_geometry.py" tempMoveOntoTarget = true ↔
      tempMoveOntoTarget.dest_path = some "/tmp/doc_geometry.py") ∧
    (dispatch_event "/tmp/doc_geometry.py" dirModifiedAtTarget = true ↔
      (dirModifiedAtTarget.is_directory = false ∧
        dirModifiedAtTarget.src_path = "/tmp/doc_geometry.py")) :=
  ⟨(dispatch_event_trigger_conditions _ _).1 rfl,
   (dispatch_event_trigger_conditions _ _).2.1 rfl⟩

/-- Start environment where watchdog is importable and the observer starts
without raising. -/
def watcherEnvOk : WatcherEnv :=
  { watchdog_available := true, observer_start_fails := false }

/-- Counterexample to claim C7: two consecutive `start_debug_watcher` calls
from the initial module state leave two started-and-never-stopped observers
and two constructed dispatchers (`ThreadSafeReloader`s): the function checks
no prior state, so the second call does create a second active Change Source
and a second dispatcher. -/
theorem start_double_start_counterexample :
    ((start_debug_watcher watcherEnvOk
        (start_debug_watcher watcherEnvOk initialGlobals).1).1).active_observers.length
      = 2 ∧
    ((start_debug_watcher watcherEnvOk
        (start_debug_watcher watcherEnvOk initialGlobals).1).1).created_reloaders.length
      = 2 := by
  decide

/-- Claim C7 (amended): `start_debug_watcher` has no double-start guard: when
the event-driven variant initialises successfully, every call constructs a
fresh dispatcher and starts a fresh observer without stopping the previous
one, so a second call adds a second active Change Source and a second
dispatcher to whatever was active before. -/
theorem start_second_call_adds_second_source (env : WatcherEnv)
    (g : WatcherGlobals) (hw : env.watchdog_available = true)
    (hf : env.observer_start_fails = false) :
    ((start_debug_watcher env (start_debug_watcher env g).1).1).active_observers.length
      = g.active_observers.length + 2 ∧
    ((start_debug_watcher env (start_debug_watcher env g).1).1).created_reloaders.length
      = g.created_reloaders.length + 2 := by
  constructor <;> simp [start_debug_watcher, hw, hf]

/-- Witness for C7 (amended) from the initial module state. -/
theorem start_second_call_adds_second_source_witness :
    ((start_debug_watcher watcherEnvOk
        (start_debug_watcher watcherEnvOk initialGlobals).1).1).active_observers.length
      = initialGlobals.active_observers.length + 2 ∧
    ((start_debug_watcher watcherEnvOk
        (start_debug_watcher watcherEnvOk initialGlobals).1).1).created_reloaders.length
      = initialGlobals.created_reloaders.length + 2 :=
  start_second_call_adds_second_source watcherEnvOk initialGlobals rfl rfl

/-- Claim C10: `start_debug_watcher` returns `True` for every environment and
every prior global state — also when watchdog is unavailable, and when the
observer fails to initialise and the polling fallback is taken — so it never
reports failure to its caller. -/
theorem start_always_returns_true (env : WatcherEnv) (g : WatcherGlobals) :
    (start_debug_watcher env g).2 = true := by
  obtain ⟨wa, fails⟩ := env
  cases wa <;> cases fails <;> simp [start_debug_watcher, start_polling]

/-- Invariant of the dispatch model, for any starting state: after running an
interleaving, the executed payloads followed by the still-pending ones equal
the initially recorded ones followed by this run's submissions in submission
order, and every execution record not inherited from the starting state
happened on the main thread. -/
theorem run_steps_invariant (steps : List SysStep) (s : DispatcherState) :
    (run_steps steps s).executed.map Prod.snd ++ (run_steps steps s).pending =
      s.executed.map Prod.snd ++ s.pending ++ submissions steps ∧
    ∀ cp ∈ (run_steps steps s).executed,
      cp ∈ s.executed ∨ cp.1 = ExecCtx.mainThread := by
  induction steps generalizing s with
  | nil =>
    constructor
    · simp [run_steps, submissions]
    · intro cp hcp
      exact Or.inl hcp
  | cons st rest ih =>
    cases st with
    | detect c p =>
      obtain ⟨h1, h2⟩ := ih (request_reload p s)
      have hrun : run_steps (SysStep.detect c p :: rest) s =
          run_steps rest (request_reload p s) := rfl
      rw [hrun]
      refine ⟨?_, ?_⟩
      · rw [h1]
        simp [request_reload, submissions, List.append_assoc]
      · intro cp hcp
        rcases h2 cp hcp with hin | hmain
        · exact Or.inl (by simpa [request_reload] using hin)
        · exact Or.inr hmain
    | deliver =>
      obtain ⟨h1, h2⟩ := ih (deliver_one s)
      have hrun : run_steps (SysStep.deliver :: rest) s =
          run_steps rest (deliver_one s) := rfl
      rw [hrun]
      cases hp : s.pending with
      | nil =>
        refine ⟨?_, ?_⟩
        · rw [h1]
          simp [deliver_one, hp, submissions]
        · intro cp hcp
          rcases h2 cp hcp with hin | hmain
          · exact Or.inl (by simpa [deliver_one, hp] using hin)
          · exact Or.inr hmain
      | cons q qs =>
        refine ⟨?_, ?_⟩
        · rw [h1]
          simp [deliver_one, hp, submissions, List.append_assoc]
        · intro cp hcp
          rcases h2 cp hcp with hin | hmain
          · have hin2 : cp ∈ s.executed ∨ cp = (ExecCtx.mainThread, q) := by
              simpa [deliver_one, hp] using hin
            rcases hin2 with h | rfl
            · exact Or.inl h
            · exact Or.inr rfl
          · exact Or.inr hmain

/-- Claim C8: in every interleaving of detection-thread submissions and
main-loop deliveries starting from session start, every invocation of the
reload executor runs on the main thread (never on a detection thread), and
the executed requests followed by the still-queued ones equal the submitted
requests in submission order (FIFO delivery consistent with submission). -/
theorem reload_executes_on_main_thread (steps : List SysStep) :
    (run_steps steps initialDispatcher).executed.all
        (fun cp => decide (cp.1 = ExecCtx.mainThread)) = true ∧
    (run_steps steps initialDispatcher).executed.map Prod.snd ++
        (run_steps steps initialDispatcher).pending = submissions steps := by
  obtain ⟨h1, h2⟩ := run_steps_invariant steps initialDispatcher
  constructor
  · rw [List.all_eq_true]
    intro cp hcp
    rcases h2 cp hcp with hin | hmain
    · simp [initialDispatcher] at hin
    · exact decide_eq_true hmain
  · simpa [initialDispatcher] using h1
